import Mathlib

/-
Formal model of the retrieval-augmented answer loop of the
multimodal-agents-lab repository (src/chat_with_pdf.py, with the reference
implementations in src/notebooks/solutions.py and the vector normalization
helper in src/test_agent_debug.py).

The external collaborators (LLM provider, embedding service, vector store,
image loader, history store) are modelled as explicit environments; the
orchestration logic itself is translated function by function from the
Python source.  Machine reals that only flow through comparisons are
modelled as rationals; the Euclidean-norm claim is modelled over the real
numbers.
-/

/-- Content passed to the LLM provider: either a text fragment or a loaded
image, identified by its file path. -/
inductive GContent
  | text (s : String)
  | image (path : String)
deriving DecidableEq

/-- Python `sep in s` and `s.split(sep, 1)` are driven by the first
occurrence of `sep`; `findMarker sep cs` returns the remainder of `cs`
after the first occurrence of `sep`, or `none` when `sep` does not occur. -/
def leadsWith : List Char → List Char → Bool
  | [], _ => true
  | _ :: _, [] => false
  | p :: ps, c :: cs => p == c && leadsWith ps cs

def findMarker (sep : List Char) : List Char → Option (List Char)
  | [] => if leadsWith sep [] then some [] else none
  | c :: cs =>
    if leadsWith sep (c :: cs) then some ((c :: cs).drop sep.length)
    else findMarker sep cs

/-- Python `sep in s` (substring containment). -/
def containsMarker (sep s : String) : Bool :=
  (findMarker sep.data s.data).isSome

/-- Python `s.split(sep, 1)[1]`: everything after the first occurrence of
`sep` (empty when the marker is absent, a case the source never reaches
because it tests containment first). -/
def afterFirst (sep s : String) : String :=
  match findMarker sep.data s.data with
  | some rest => String.mk rest
  | none => ""

/-- ASCII whitespace as recognised by Python `str.strip`. -/
def isSpaceChar (c : Char) : Bool :=
  c == ' ' || c == '\t' || c == '\n' || c == '\r' || c == '\x0b' || c == '\x0c'

/-- Python `s.strip()`: drop whitespace from both ends. -/
def pyStrip (s : String) : String :=
  String.mk (((s.data.dropWhile isSpaceChar).reverse.dropWhile isSpaceChar).reverse)

def answerMarker : String := "ANSWER:"

def toolMarker : String := "TOOL:"

/-- Appended to the information when the tool returns nothing
(chat_with_pdf.py line 483). -/
def reactNoInfoMsg : String := "No relevant information found for this query."

/-- Appended on an unclear decision (chat_with_pdf.py line 486). -/
def reactUnclearMsg : String := "Unable to determine next action."

/-- Returned when the iteration budget is exhausted (chat_with_pdf.py
line 489). -/
def reactMaxIterMsg : String :=
  "I couldn\x27t find a definitive answer after exploring the available information. Please try rephrasing your question."

/-- The hard-coded iteration bound of the ReAct loop (chat_with_pdf.py
line 437). -/
def maxIterations : Nat := 3

/-- The ReAct system prompt built at chat_with_pdf.py lines 426-435. -/
def reactSystemPrompt (user_query : String) : String :=
  "You are an AI assistant with access to document search capabilities. Based on the current information, decide if you have enough to answer the user query, or if you need more information. If you have enough information, respond with \x27ANSWER: <your answer>\x27. If you need more information, respond with \x27TOOL: <question for the tool>\x27. Keep the question concise. User query: "
    ++ user_query ++ "\nCurrent information:\n"

/-- Environment of the ReAct strategy: the LLM provider (a string decision
for each content sequence), the retrieval tool result for each search
phrase, and which image paths exist and can be opened. -/
structure ReactEnv where
  llm : List GContent → String
  search : String → List String
  imageOk : String → Bool

/-- Result of a ReAct run, instrumented with two ghost observations that
the source only prints: how many loop iterations ran and which tool
queries were issued. -/
structure ReactOutcome where
  answer : String
  iterations : Nat
  toolQueries : List String
deriving DecidableEq

/-- The while loop of generate_answer_react (chat_with_pdf.py lines
445-489), by recursion on the remaining iteration budget; `iters` and
`tqs` accumulate the instrumentation.  The loop body first increments the
iteration counter, asks the LLM with the system prompt plus the
accumulated information, and then tests the ANSWER marker before the TOOL
marker. -/
def reactAux (env : ReactEnv) (user_query : String) :
    Nat → List GContent → Nat → List String → ReactOutcome
  | 0, _, iters, tqs => ⟨reactMaxIterMsg, iters, tqs⟩
  | fuel + 1, info, iters, tqs =>
    let decision := env.llm (GContent.text (reactSystemPrompt user_query) :: info)
    if containsMarker answerMarker decision then
      ⟨pyStrip (afterFirst answerMarker decision), iters + 1, tqs⟩
    else if containsMarker toolMarker decision then
      let toolQuery := pyStrip (afterFirst toolMarker decision)
      let toolImages := env.search toolQuery
      if toolImages.isEmpty then
        reactAux env user_query fuel (info ++ [GContent.text reactNoInfoMsg])
          (iters + 1) (tqs ++ [toolQuery])
      else
        reactAux env user_query fuel
          (info ++ (toolImages.filter env.imageOk).map GContent.image)
          (iters + 1) (tqs ++ [toolQuery])
    else
      reactAux env user_query fuel (info ++ [GContent.text reactUnclearMsg])
        (iters + 1) tqs

/-- generate_answer_react (chat_with_pdf.py lines 419-489): the initial
information is the user-supplied images that exist on disk; the loop runs
with budget `maxIterations`.  The function is total by construction, which
models the termination of the bounded while loop. -/
def generate_answer_react (env : ReactEnv) (user_query : String)
    (images : List String) : ReactOutcome :=
  reactAux env user_query maxIterations
    ((images.filter env.imageOk).map GContent.image) 0 []

/-- Outcome of the HTTP embedding call made by generate_query_embedding:
the request either raised (service unreachable) or produced a reply with a
status code and, when the JSON body carries one, an `embedding` field.  A
missing field makes the source raise a KeyError that its own handler
turns into `None`. -/
inductive EmbedOutcome
  | raised
  | replied (status : Nat) (embedding : Option (List ℚ))
deriving DecidableEq

/-- A document of the vector store collection, with the fields the
aggregation projects. -/
structure StoredDoc where
  key : String
  width : Nat
  height : Nat
  page_number : Nat
  embedding : List ℚ
deriving DecidableEq

/-- A projected vector-search result (chat_with_pdf.py lines 224-233). -/
structure SearchResult where
  key : String
  width : Nat
  height : Nat
  page_number : Nat
  score : ℚ
deriving DecidableEq

/-- Descending order on the similarity score. -/
def byScoreDesc (a b : SearchResult) : Prop := b.score ≤ a.score

instance : DecidableRel byScoreDesc :=
  fun a b => inferInstanceAs (Decidable (b.score ≤ a.score))

instance : IsTotal SearchResult byScoreDesc :=
  ⟨fun a b => le_total b.score a.score⟩

instance : IsTrans SearchResult byScoreDesc :=
  ⟨fun _ _ _ h1 h2 => le_trans h2 h1⟩

/-- Model of the external vector store aggregation (the `$vectorSearch`
plus `$project` pipeline of chat_with_pdf.py lines 214-234): the store
returns the `limit` best matches ordered by descending similarity score,
projecting key, dimensions, page number and score.  The similarity scoring
and the candidate-pool approximation belong to the external service; the
score function is supplied by the environment and the model performs an
exact search, which is the service behaviour the spec describes. -/
def vectorSearchPipeline (scoreFn : List ℚ → List ℚ → ℚ) (docs : List StoredDoc)
    (queryVector : List ℚ) (_numCandidates limit : Nat) : List SearchResult :=
  (List.insertionSort byScoreDesc
      (docs.map fun d =>
        ⟨d.key, d.width, d.height, d.page_number, scoreFn queryVector d.embedding⟩)).take
    limit

/-- Environment of the retrieval tool: the configured serverless URL (if
any), the embedding call outcome for each query text, the numeric square
root used by `np.linalg.norm` (a floating-point operation of the numeric
library, hence supplied by the environment: exact square roots leave the
rationals), the external similarity score, and the stored documents. -/
structure SearchEnv where
  serverlessUrl : Option String
  embedCall : String → EmbedOutcome
  sqrtFn : ℚ → ℚ
  scoreFn : List ℚ → List ℚ → ℚ
  docs : List StoredDoc

/-- Sum of squares of the entries, over the rationals. -/
def sumSqQ (v : List ℚ) : ℚ := (v.map fun x => x * x).sum

/-- The normalization step of generate_query_embedding (chat_with_pdf.py
lines 177-180): divide by the Euclidean norm when it is positive; the norm
is the square root of the sum of squares, taken with the environment's
square root. -/
def normalizeWith (sqrtFn : ℚ → ℚ) (v : List ℚ) : List ℚ :=
  let norm := sqrtFn (sumSqQ v)
  if 0 < norm then v.map fun x => x / norm else v

/-- generate_query_embedding (chat_with_pdf.py lines 164-191): no
configured URL, a raised request, a non-200 status, or a missing
`embedding` field all yield `None`; a 200 reply with an embedding is
normalized and returned. -/
def generate_query_embedding (env : SearchEnv) (text_query : String) :
    Option (List ℚ) :=
  match env.serverlessUrl with
  | none => none
  | some _ =>
    match env.embedCall text_query with
    | EmbedOutcome.raised => none
    | EmbedOutcome.replied status body =>
      if status = 200 then
        match body with
        | none => none
        | some emb => some (normalizeWith env.sqrtFn emb)
      else none

/-- vector_search_tool (chat_with_pdf.py lines 193-256): a missing or
falsy query embedding short-circuits to the empty list; otherwise the
aggregation runs with 150 candidates and limit 2 and the image keys are
extracted in order.  The source wraps the whole body in try/except
returning `[]`, so the function never raises to its caller; the model is
total accordingly. -/
def vector_search_tool (env : SearchEnv) (user_query : String) : List String :=
  match generate_query_embedding env user_query with
  | none => []
  | some query_embedding =>
    if query_embedding.isEmpty then []
    else
      (vectorSearchPipeline env.scoreFn env.docs query_embedding 150 2).map
        SearchResult.key

/-- A record of the history collection (chat_with_pdf.py lines 289-295);
timestamps are modelled as naturals. -/
structure ChatMsg where
  session_id : String
  role : String
  type : String
  content : String
  timestamp : Nat
deriving DecidableEq

/-- Ascending order on timestamps, the sort key of the history query. -/
def byTimestamp (a b : ChatMsg) : Prop := a.timestamp ≤ b.timestamp

instance : DecidableRel byTimestamp :=
  fun a b => inferInstanceAs (Decidable (a.timestamp ≤ b.timestamp))

instance : IsTotal ChatMsg byTimestamp :=
  ⟨fun a b => le_total a.timestamp b.timestamp⟩

instance : IsTrans ChatMsg byTimestamp :=
  ⟨fun _ _ _ h1 h2 => le_trans h1 h2⟩

/-- store_chat_message (chat_with_pdf.py lines 283-298): a no-op unless
memory mode is on, otherwise an insert into the history collection. -/
def store_chat_message (useMemory : Bool) (store : List ChatMsg)
    (session_id role type content : String) (now : Nat) : List ChatMsg :=
  if useMemory then store ++ [⟨session_id, role, type, content, now⟩] else store

/-- retrieve_session_history (chat_with_pdf.py lines 300-321): empty
unless memory mode is on, otherwise the session's messages sorted by
ascending timestamp, text entries kept as text and image entries kept as
loaded images when the path loads, skipped otherwise (entries of any other
type are skipped by the if/elif chain). -/
def retrieve_session_history (imageOk : String → Bool) (useMemory : Bool)
    (store : List ChatMsg) (session_id : String) : List GContent :=
  if useMemory then
    (List.insertionSort byTimestamp
        (store.filter fun m => m.session_id == session_id)).filterMap
      fun m =>
        if m.type == "text" then some (GContent.text m.content)
        else if m.type == "image" then
          (if imageOk m.content then some (GContent.image m.content) else none)
        else none
  else []

/-- clear_history (chat_with_pdf.py lines 521-531): without memory mode
nothing is deleted; otherwise every message of the session is removed and
the deleted count reported. -/
def clear_history (useMemory : Bool) (store : List ChatMsg)
    (session_id : String) : List ChatMsg × Nat :=
  if useMemory then
    (store.filter (fun m => !(m.session_id == session_id)),
      (store.filter fun m => m.session_id == session_id).length)
  else (store, 0)

/-- The transient tool-selection decision returned by the LLM provider
(select_tool, chat_with_pdf.py lines 323-352), carrying the declared
function name and its `user_query` argument. -/
structure ToolCall where
  name : String
  user_query : String
deriving DecidableEq

/-- The tool name declared at chat_with_pdf.py line 264. -/
def toolName : String := "get_information_for_question_answering"

/-- The grounding system prompt of the direct strategy (chat_with_pdf.py
lines 385-389). -/
def directSystemPrompt : String :=
  "Answer the questions based on the provided context only. If the context is not sufficient, say I DON\x27T KNOW. DO NOT use any other information to answer the question."

/-- The fixed apology returned by generate_answer on an uncaught error
(chat_with_pdf.py line 417). -/
def apologyMsg : String :=
  "I apologize, but I encountered an error while processing your question."

/-- Environment of the direct strategy.  `selectTool` is the LLM
tool-selection call: select_tool catches its own provider exceptions and
returns `None` for them, so the error constructor records a provider
error at that step.  `generate` is the grounded generation call, whose
exceptions reach generate_answer's own handler.  `imageOk` says whether an
image path exists and opens.  `now` is the wall-clock timestamp used for
memory inserts. -/
structure DirectEnv where
  selectTool : List GContent → Except String (Option ToolCall)
  searchEnv : SearchEnv
  imageOk : String → Bool
  generate : List GContent → Except String String
  now : Nat

/-- Result of one direct-strategy turn.  `defaultImages` is the value of
the `images` list when the call returns: the source declares
`images: List = []`, a mutable default that `images.extend(tool_images)`
mutates in place, so on calls that use the default (as the interactive
loop does) this list is shared from one turn to the next. -/
structure DirectOutcome where
  answer : String
  defaultImages : List String
  store : List ChatMsg
deriving DecidableEq

/-- The context assembly of generate_answer (chat_with_pdf.py lines
359-395): replay history when memory is on, ask the LLM to select a tool
(a selection error is caught inside select_tool and degrades to no tool),
extend `images` with the retrieval result when the retrieval tool was
named, keep only images that exist and open, and build the generation
contents.  Returns the contents together with the extended `images`
list. -/
def direct_contents (env : DirectEnv) (useMemory : Bool) (store : List ChatMsg)
    (session_id user_query : String) (images : List String) :
    List GContent × List String :=
  let history :=
    if useMemory then retrieve_session_history env.imageOk useMemory store session_id
    else []
  let messages_for_tool :=
    if history.isEmpty then [GContent.text user_query]
    else history ++ [GContent.text user_query]
  let tool_call :=
    match env.selectTool messages_for_tool with
    | Except.ok tc => tc
    | Except.error _ => none
  let images2 :=
    match tool_call with
    | some tc =>
      if tc.name == toolName then
        images ++ vector_search_tool env.searchEnv tc.user_query
      else images
    | none => images
  let valid_images := images2.filter env.imageOk
  (GContent.text directSystemPrompt ::
      (history ++ (GContent.text user_query :: valid_images.map GContent.image)),
    images2)

/-- generate_answer (chat_with_pdf.py lines 354-417): assemble the
contents, call the generation endpoint, store the turn when memory is on,
and return the text; an error escaping to the function's own handler
yields the fixed apology.  The returned record also carries the mutated
default-argument list and the updated history store. -/
def generate_answer (env : DirectEnv) (useMemory : Bool) (store : List ChatMsg)
    (session_id user_query : String) (images : List String) : DirectOutcome :=
  let ci := direct_contents env useMemory store session_id user_query images
  match env.generate ci.1 with
  | Except.ok answer =>
    if useMemory then
      let s1 := store_chat_message useMemory store session_id "user" "text" user_query env.now
      let s2 := ci.2.foldl
        (fun acc p => store_chat_message useMemory acc session_id "user" "image" p env.now) s1
      let s3 := store_chat_message useMemory s2 session_id "agent" "text" answer env.now
      ⟨answer, ci.2, s3⟩
    else ⟨answer, ci.2, store⟩
  | Except.error _ => ⟨apologyMsg, ci.2, store⟩

/-- Sum of squares over the reals. -/
def sumSqR (v : List ℝ) : ℝ := (v.map fun x => x * x).sum

/-- Euclidean norm of a vector, `np.linalg.norm`; the floating-point
values are idealized as reals. -/
noncomputable def normVecR (v : List ℝ) : ℝ := Real.sqrt (sumSqR v)

/-- normalize_vector (src/test_agent_debug.py lines 97-100), the same
step as chat_with_pdf.py lines 177-180: divide by the norm when it is
positive, return the vector unchanged otherwise. -/
noncomputable def normalize_vector (v : List ℝ) : List ℝ :=
  if 0 < normVecR v then v.map fun x => x / normVecR v else v

/-- Demo LLM that immediately emits an ANSWER decision. -/
def reactEnvA : ReactEnv :=
  ⟨fun _ => "I have enough. ANSWER:  42 is the answer.  ",
    fun _ => [], fun _ => false⟩

/-- Demo LLM whose decision carries both markers. -/
def reactEnvB : ReactEnv :=
  ⟨fun _ => "TOOL: find the accuracy table ANSWER: done",
    fun _ => ["images/p.png"], fun _ => true⟩

/-- Demo retrieval environment whose embedding service replies with
HTTP 500. -/
def searchEnv500 : SearchEnv :=
  ⟨some "http://sls.example", fun _ => EmbedOutcome.replied 500 none,
    fun x => x, fun _ _ => 0, []⟩

/-- Demo retrieval environment for the scenario with two stored pages
scoring 0.91 and 0.77 against the query: the embedding service replies
with the unit vector [1] and the similarity is the dot product. -/
def c6Env : SearchEnv :=
  ⟨some "http://sls.example", fun _ => EmbedOutcome.replied 200 (some [1]),
    fun x => x,
    fun qv dv => (List.zipWith (fun a b => a * b) qv dv).sum,
    [⟨"images/page_4.png", 932, 1318, 4, [91/100]⟩,
      ⟨"images/page_7.png", 932, 1318, 7, [77/100]⟩]⟩

/-- Demo direct-strategy environment whose tool-selection call raises a
provider error while the generation call succeeds. -/
def directEnvSelErr : DirectEnv :=
  ⟨fun _ => Except.error "boom",
    ⟨none, fun _ => EmbedOutcome.raised, fun x => x, fun _ _ => 0, []⟩,
    fun _ => false,
    fun _ => Except.ok "The Pass@1 accuracy of DeepSeek R1 on AIME 2024 is 79.8.",
    0⟩

/-- Demo direct-strategy environment whose generation call raises. -/
def directEnvGenErr : DirectEnv :=
  ⟨fun _ => Except.ok none,
    ⟨none, fun _ => EmbedOutcome.raised, fun x => x, fun _ _ => 0, []⟩,
    fun _ => false,
    fun _ => Except.error "http 500",
    0⟩

/-- Search environment for the cross-turn demonstration: one stored page
that matches every query. -/
def c3SearchEnv : SearchEnv :=
  ⟨some "http://sls.example", fun _ => EmbedOutcome.replied 200 (some [1]),
    fun x => x,
    fun qv dv => (List.zipWith (fun a b => a * b) qv dv).sum,
    [⟨"images/page_1.png", 932, 1318, 1, [1]⟩]⟩

/-- Turn 1 of the cross-turn demonstration: the LLM selects the retrieval
tool. -/
def c3EnvTurn1 : DirectEnv :=
  ⟨fun _ => Except.ok (some ⟨toolName, "q1"⟩), c3SearchEnv, fun _ => true,
    fun _ => Except.ok "first answer", 0⟩

/-- Turn 2 of the cross-turn demonstration: the LLM selects no tool, so
no Vector Store call happens in this turn. -/
def c3EnvTurn2 : DirectEnv :=
  ⟨fun _ => Except.ok none, c3SearchEnv, fun _ => true,
    fun _ => Except.ok "second answer", 1⟩

/-- A history store holding five messages of session s1 and one message
of session s2. -/
def demoHistoryStore : List ChatMsg :=
  [⟨"s1", "user", "text", "What is this paper about?", 0⟩,
    ⟨"s1", "user", "image", "images/page_1.png", 1⟩,
    ⟨"s1", "agent", "text", "A reasoning model.", 2⟩,
    ⟨"s1", "user", "text", "More detail please.", 3⟩,
    ⟨"s1", "agent", "text", "It reports Pass@1 accuracy on AIME 2024.", 4⟩,
    ⟨"s2", "user", "text", "Unrelated session.", 5⟩]

/-- The loop consumes at most its remaining budget: the iteration count
of a run started at `iters` with `fuel` budget is at most `iters + fuel`. -/
theorem reactAux_iterations_le (env : ReactEnv) (q : String) :
    ∀ fuel info iters tqs,
      (reactAux env q fuel info iters tqs).iterations ≤ iters + fuel := by
  intro fuel
  induction fuel with
  | zero => intro info iters tqs; simp [reactAux]
  | succ n ih =>
    intro info iters tqs
    simp only [reactAux]
    split
    · simp
    · split
      · split
        · exact le_trans (ih _ _ _) (by omega)
        · exact le_trans (ih _ _ _) (by omega)
      · exact le_trans (ih _ _ _) (by omega)

/-- C1: for every sequence of LLM outputs, a single run of the ReAct
strategy executes at most 3 reasoning iterations; the strategy always
terminates with a string, which the model witnesses by being a total
function into `ReactOutcome`. -/
theorem react_terminates_within_three_iterations (env : ReactEnv)
    (user_query : String) (images : List String) :
    (generate_answer_react env user_query images).iterations ≤ 3 := by
  have h := reactAux_iterations_le env user_query maxIterations
    ((images.filter env.imageOk).map GContent.image) 0 []
  simpa [generate_answer_react, maxIterations] using h

/-- C4: whenever the LLM output of an iteration contains the ANSWER
marker, the loop returns exactly the substring following the first
occurrence of the marker with surrounding whitespace trimmed, consuming
only that iteration and issuing no tool query afterwards. -/
theorem react_answer_marker_immediate_return (env : ReactEnv)
    (user_query : String) (fuel : Nat) (info : List GContent) (iters : Nat)
    (tqs : List String)
    (h : containsMarker answerMarker
        (env.llm (GContent.text (reactSystemPrompt user_query) :: info)) = true) :
    reactAux env user_query (fuel + 1) info iters tqs =
      ⟨pyStrip (afterFirst answerMarker
          (env.llm (GContent.text (reactSystemPrompt user_query) :: info))),
        iters + 1, tqs⟩ := by
  simp [reactAux, h]

/-- Witness for C4 at a concrete environment: the decision
"I have enough. ANSWER:  42 is the answer.  " yields the trimmed tail of
the first ANSWER marker in one iteration with no tool query. -/
theorem react_answer_marker_immediate_return_check :
    containsMarker answerMarker
        (reactEnvA.llm [GContent.text (reactSystemPrompt "q")]) = true ∧
    reactAux reactEnvA "q" 3 [] 0 [] = ⟨"42 is the answer.", 1, []⟩ := by
  have h := react_answer_marker_immediate_return reactEnvA "q" 2 [] 0 [] (by decide)
  exact ⟨by decide, h.trans (by decide)⟩

/-- C10: when an LLM output contains both the ANSWER and the TOOL marker,
the ANSWER branch is tested first, so the loop treats the output as a
final answer and issues no tool call for it. -/
theorem react_answer_marker_precedence (env : ReactEnv)
    (user_query : String) (fuel : Nat) (info : List GContent) (iters : Nat)
    (tqs : List String)
    (h1 : containsMarker answerMarker
        (env.llm (GContent.text (reactSystemPrompt user_query) :: info)) = true)
    (_h2 : containsMarker toolMarker
        (env.llm (GContent.text (reactSystemPrompt user_query) :: info)) = true) :
    reactAux env user_query (fuel + 1) info iters tqs =
      ⟨pyStrip (afterFirst answerMarker
          (env.llm (GContent.text (reactSystemPrompt user_query) :: info))),
        iters + 1, tqs⟩ := by
  simp [reactAux, h1]

/-- Witness for C10 at a concrete environment: the decision
"TOOL: find the accuracy table ANSWER: done" carries both markers and is
treated as the final answer "done" with no tool query. -/
theorem react_answer_marker_precedence_check :
    containsMarker answerMarker
        (reactEnvB.llm [GContent.text (reactSystemPrompt "q")]) = true ∧
    containsMarker toolMarker
        (reactEnvB.llm [GContent.text (reactSystemPrompt "q")]) = true ∧
    reactAux reactEnvB "q" 3 [] 0 [] = ⟨"done", 1, []⟩ := by
  have h := react_answer_marker_precedence reactEnvB "q" 2 [] 0 []
    (by decide) (by decide)
  exact ⟨by decide, by decide, h.trans (by decide)⟩

/-- On a missing URL, a raised request or a non-200 status, the embedding
step yields nothing. -/
theorem generate_query_embedding_failure (env : SearchEnv) (q : String)
    (h : env.serverlessUrl = none ∨ env.embedCall q = EmbedOutcome.raised ∨
      ∃ st body, st ≠ 200 ∧ env.embedCall q = EmbedOutcome.replied st body) :
    generate_query_embedding env q = none := by
  rcases h with h | h | ⟨st, body, hst, h⟩
  · simp [generate_query_embedding, h]
  · cases hu : env.serverlessUrl <;> simp [generate_query_embedding, hu, h]
  · cases hu : env.serverlessUrl <;> simp [generate_query_embedding, hu, h, hst]

/-- C2: whenever the Embedding Provider is absent (no configured URL),
unreachable (the request raises) or replies with a non-success status,
the retrieval tool returns the empty sequence; it never raises to its
caller, which the model witnesses by being a total function (the source
wraps its body in try/except returning the empty list). -/
theorem vector_search_tool_provider_failure_empty (env : SearchEnv) (q : String)
    (h : env.serverlessUrl = none ∨ env.embedCall q = EmbedOutcome.raised ∨
      ∃ st body, st ≠ 200 ∧ env.embedCall q = EmbedOutcome.replied st body) :
    vector_search_tool env q = [] := by
  simp [vector_search_tool, generate_query_embedding_failure env q h]

/-- Witness for C2: an embedding service replying HTTP 500 makes the
retrieval tool return the empty list. -/
theorem vector_search_tool_provider_failure_empty_check :
    vector_search_tool searchEnv500 "any question" = [] :=
  vector_search_tool_provider_failure_empty searchEnv500 "any question"
    (Or.inr (Or.inr ⟨500, none, by decide, rfl⟩))

/-- C6: on a successful (non-falsy) query embedding, the retrieval tool
returns the image keys of the aggregation result, a finite sequence of at
most 2 items whose underlying results are ordered by descending
similarity score. -/
theorem vector_search_tool_topk_ordered (env : SearchEnv) (q : String)
    (qe : List ℚ) (h1 : generate_query_embedding env q = some qe)
    (h2 : qe.isEmpty = false) :
    (vector_search_tool env q).length ≤ 2 ∧
    vector_search_tool env q =
      (vectorSearchPipeline env.scoreFn env.docs qe 150 2).map SearchResult.key ∧
    List.Pairwise byScoreDesc (vectorSearchPipeline env.scoreFn env.docs qe 150 2) := by
  have heq : vector_search_tool env q =
      (vectorSearchPipeline env.scoreFn env.docs qe 150 2).map SearchResult.key := by
    simp [vector_search_tool, h1, h2]
  refine ⟨?_, heq, ?_⟩
  · rw [heq, List.length_map]
    simp only [vectorSearchPipeline]
    exact List.length_take_le 2 _
  · have hs := List.sorted_insertionSort byScoreDesc
      (env.docs.map fun d =>
        ⟨d.key, d.width, d.height, d.page_number, env.scoreFn qe d.embedding⟩)
    exact List.Pairwise.sublist (List.take_sublist 2 _) hs

/-- Witness for C6, the spec scenario: a store holding two matching pages
at scores 0.91 and 0.77 yields both keys, ordered by descending score. -/
theorem vector_search_tool_topk_ordered_check :
    generate_query_embedding c6Env
        "What is the Pass@1 accuracy of DeepSeek R1 on AIME 2024?" = some [1] ∧
    vector_search_tool c6Env
        "What is the Pass@1 accuracy of DeepSeek R1 on AIME 2024?" =
      ["images/page_4.png", "images/page_7.png"] := by
  have he : generate_query_embedding c6Env
      "What is the Pass@1 accuracy of DeepSeek R1 on AIME 2024?" = some [1] := by
    norm_num [generate_query_embedding, c6Env, normalizeWith, sumSqQ]
  have h := vector_search_tool_topk_ordered c6Env
    "What is the Pass@1 accuracy of DeepSeek R1 on AIME 2024?" [1] he (by decide)
  refine ⟨he, h.2.1.trans ?_⟩
  norm_num [vectorSearchPipeline, c6Env, byScoreDesc]

theorem sumSqR_nil : sumSqR [] = 0 := by
  simp [sumSqR]

theorem sumSqR_cons (a : ℝ) (t : List ℝ) : sumSqR (a :: t) = a * a + sumSqR t := by
  simp [sumSqR]

theorem sumSqR_nonneg (v : List ℝ) : 0 ≤ sumSqR v := by
  apply List.sum_nonneg
  intro x hx
  obtain ⟨y, -, rfl⟩ := List.mem_map.mp hx
  exact mul_self_nonneg y

theorem sumSqR_pos (v : List ℝ) (x : ℝ) (hx : x ∈ v) (hne : x ≠ 0) :
    0 < sumSqR v := by
  have hmem : x * x ∈ v.map fun y => y * y := List.mem_map_of_mem _ hx
  have hle : x * x ≤ sumSqR v :=
    List.single_le_sum (fun y hy => by
      obtain ⟨z, -, rfl⟩ := List.mem_map.mp hy
      exact mul_self_nonneg z) _ hmem
  exact lt_of_lt_of_le (mul_self_pos.mpr hne) hle

theorem sumSqR_map_div (v : List ℝ) (c : ℝ) :
    sumSqR (v.map fun x => x / c) = sumSqR v / (c * c) := by
  induction v with
  | nil => simp [sumSqR]
  | cons a t ih =>
    rw [List.map_cons, sumSqR_cons, sumSqR_cons, ih, div_mul_div_comm,
      div_add_div_same]

/-- C5: a vector with a non-zero entry is normalized to Euclidean norm 1;
a vector of zeroes (in particular the zero vector) is returned unchanged,
so no division by zero occurs. -/
theorem normalize_vector_unit_norm (v : List ℝ) :
    ((∃ x ∈ v, x ≠ 0) → normVecR (normalize_vector v) = 1) ∧
    ((∀ x ∈ v, x = 0) → normalize_vector v = v) := by
  constructor
  · rintro ⟨x, hx, hne⟩
    have hpos : 0 < sumSqR v := sumSqR_pos v x hx hne
    have hnorm : 0 < normVecR v := Real.sqrt_pos.mpr hpos
    have hnv : normalize_vector v = v.map fun y => y / normVecR v := by
      simp [normalize_vector, hnorm]
    rw [hnv]
    unfold normVecR
    rw [sumSqR_map_div]
    rw [Real.mul_self_sqrt (le_of_lt hpos), div_self (ne_of_gt hpos),
      Real.sqrt_one]
  · intro hz
    have h0 : sumSqR v = 0 := by
      apply List.sum_eq_zero
      intro y hy
      obtain ⟨z, hzmem, rfl⟩ := List.mem_map.mp hy
      rw [hz z hzmem, mul_zero]
    simp [normalize_vector, normVecR, h0]

/-- Witness for C5: the vector (3, -4) is normalized to norm 1, and the
zero vector (0, 0) is returned unchanged. -/
theorem normalize_vector_unit_norm_check :
    normVecR (normalize_vector [(3 : ℝ), -4]) = 1 ∧
    normalize_vector [(0 : ℝ), 0] = [0, 0] :=
  ⟨(normalize_vector_unit_norm [3, -4]).1 ⟨3, by norm_num, by norm_num⟩,
    (normalize_vector_unit_norm [0, 0]).2 (by norm_num)⟩

/-- C7 counterexample: a provider error at the tool-selection step does
not produce the apology string.  select_tool catches its own exception and
returns `None` (chat_with_pdf.py lines 350-352), so the strategy proceeds
without a tool and returns the generation result. -/
theorem select_tool_error_not_apology :
    directEnvSelErr.selectTool [GContent.text "q"] = Except.error "boom" ∧
    (generate_answer directEnvSelErr false [] "s" "q" []).answer =
      "The Pass@1 accuracy of DeepSeek R1 on AIME 2024 is 79.8." ∧
    (generate_answer directEnvSelErr false [] "s" "q" []).answer ≠ apologyMsg :=
  ⟨rfl, by decide, by decide⟩

/-- C7 (amended): a provider error that reaches the strategy's own
handler — that is, an error of the final grounded generation call — is
caught and converted to the fixed apology string, with no retry. -/
theorem generate_answer_generation_error_apology (env : DirectEnv)
    (useMemory : Bool) (store : List ChatMsg) (session_id user_query : String)
    (images : List String) (e : String)
    (h : env.generate
        (direct_contents env useMemory store session_id user_query images).1 =
      Except.error e) :
    (generate_answer env useMemory store session_id user_query images).answer =
      apologyMsg := by
  simp [generate_answer, h]

/-- Witness for the amended C7: a generation call that raises makes the
direct strategy return the apology string. -/
theorem generate_answer_generation_error_apology_check :
    (generate_answer directEnvGenErr false [] "s" "q" []).answer = apologyMsg :=
  generate_answer_generation_error_apology directEnvGenErr false [] "s" "q" []
    "http 500" rfl

/-- With memory disabled, a direct-strategy turn neither reads nor
writes the history store: the result is the one obtained with an empty
store and any session identifier, with the input store passed through. -/
theorem generate_answer_no_memory (env : DirectEnv) (store : List ChatMsg)
    (session_id user_query : String) (images : List String) :
    generate_answer env false store session_id user_query images =
      ⟨(generate_answer env false [] "" user_query images).answer,
        (generate_answer env false [] "" user_query images).defaultImages,
        store⟩ := by
  have hc : direct_contents env false store session_id user_query images =
      direct_contents env false [] "" user_query images := rfl
  cases hg : env.generate (direct_contents env false [] "" user_query images).1 with
  | ok a => simp [generate_answer, hc, hg]
  | error e => simp [generate_answer, hc, hg]

/-- C8: with Session Memory disabled, append leaves the store unchanged,
history is empty, and the direct strategy behaves exactly as with memory
entirely absent: the answer and the (shared) images list do not depend on
the store or the session, and the store is passed through unchanged. -/
theorem memory_disabled_noop (env : DirectEnv) (imageOk : String → Bool)
    (store store2 : List ChatMsg)
    (session_id session_id2 role type content : String) (now : Nat)
    (user_query : String) (images : List String) :
    store_chat_message false store session_id role type content now = store ∧
    retrieve_session_history imageOk false store session_id = [] ∧
    (generate_answer env false store session_id user_query images).answer =
      (generate_answer env false store2 session_id2 user_query images).answer ∧
    (generate_answer env false store session_id user_query images).defaultImages =
      (generate_answer env false store2 session_id2 user_query images).defaultImages ∧
    (generate_answer env false store session_id user_query images).store = store := by
  refine ⟨rfl, rfl, ?_, ?_, ?_⟩
  · rw [generate_answer_no_memory env store session_id user_query images,
      generate_answer_no_memory env store2 session_id2 user_query images]
  · rw [generate_answer_no_memory env store session_id user_query images,
      generate_answer_no_memory env store2 session_id2 user_query images]
  · rw [generate_answer_no_memory env store session_id user_query images]

theorem filter_not_filter_self (sid : String) (l : List ChatMsg) :
    (l.filter fun m => !(m.session_id == sid)).filter
      (fun m => m.session_id == sid) = [] := by
  induction l with
  | nil => rfl
  | cons a t ih =>
    cases ha : a.session_id == sid <;> simp [List.filter_cons, ha, ih]

theorem filter_other_session (sid other : String) (hne : other ≠ sid)
    (l : List ChatMsg) :
    (l.filter fun m => !(m.session_id == sid)).filter
      (fun m => m.session_id == other) =
    l.filter fun m => m.session_id == other := by
  induction l with
  | nil => rfl
  | cons a t ih =>
    cases ha : a.session_id == other with
    | false =>
      cases hb : a.session_id == sid <;> simp [List.filter_cons, ha, hb, ih]
    | true =>
      have haeq : a.session_id = other := by simpa using ha
      have hb : (a.session_id == sid) = false := by
        simp [haeq]
        exact hne
      simp [List.filter_cons, ha, hb, ih]

/-- C9: clearing a session deletes exactly the messages whose session_id
matches and reports their count; messages of every other session are
unchanged, and a subsequent history call for the cleared session returns
the empty sequence. -/
theorem clear_history_removes_session (imageOk : String → Bool)
    (store : List ChatMsg) (sid : String) :
    (clear_history true store sid).2 =
      (store.filter fun m => m.session_id == sid).length ∧
    (clear_history true store sid).1.filter (fun m => m.session_id == sid) = [] ∧
    (∀ other : String, other ≠ sid →
      (clear_history true store sid).1.filter (fun m => m.session_id == other) =
        store.filter fun m => m.session_id == other) ∧
    retrieve_session_history imageOk true (clear_history true store sid).1 sid =
      [] := by
  refine ⟨rfl, ?_, ?_, ?_⟩
  · exact filter_not_filter_self sid store
  · intro other hne
    exact filter_other_session sid other hne store
  · have h2 := filter_not_filter_self sid store
    simp only [clear_history, if_pos] at h2 ⊢
    simp [retrieve_session_history, h2]

/-- Witness for C9, the spec scenario: clearing a session holding 5
messages reports 5 deleted, leaves the other session untouched, and a
subsequent history call returns the empty sequence. -/
theorem clear_history_removes_session_check :
    (clear_history true demoHistoryStore "s1").2 = 5 ∧
    (clear_history true demoHistoryStore "s1").1.filter
        (fun m => m.session_id == "s2") =
      demoHistoryStore.filter (fun m => m.session_id == "s2") ∧
    retrieve_session_history (fun _ => true) true
      (clear_history true demoHistoryStore "s1").1 "s1" = [] := by
  have h := clear_history_removes_session (fun _ => true) demoHistoryStore "s1"
  exact ⟨h.1.trans (by decide), h.2.2.1 "s2" (by decide), h.2.2.2⟩

/-- C3 demonstration: `generate_answer` declares `images: List = []`, a
mutable default that `images.extend(tool_images)` mutates in place, so the
interactive loop (which always calls `generate_answer(user_input)`)
shares that list across turns.  With memory disabled, turn 1 retrieves
images/page_1.png through the tool; turn 2 makes no Vector Store call at
all, yet its generation contents still contain turn 1's retrieved image —
the spec's same-turn invariant is violated by this slip. -/
theorem mutable_default_cross_turn_reuse :
    (generate_answer c3EnvTurn1 false [] "s" "q1" []).defaultImages =
      ["images/page_1.png"] ∧
    GContent.image "images/page_1.png" ∈
      (direct_contents c3EnvTurn2 false [] "s" "q2"
        (generate_answer c3EnvTurn1 false [] "s" "q1" []).defaultImages).1 := by
  have he : generate_query_embedding c3SearchEnv "q1" = some [1] := by
    norm_num [generate_query_embedding, c3SearchEnv, normalizeWith, sumSqQ]
  have hsearch : vector_search_tool c3SearchEnv "q1" = ["images/page_1.png"] := by
    simp [vector_search_tool, he]
    norm_num [vectorSearchPipeline, byScoreDesc, c3SearchEnv]
  have h1 : (generate_answer c3EnvTurn1 false [] "s" "q1" []).defaultImages =
      ["images/page_1.png"] := by
    simp [generate_answer, direct_contents, c3EnvTurn1, toolName, hsearch]
  refine ⟨h1, ?_⟩
  rw [h1]
  simp [direct_contents, c3EnvTurn2]
